import Mathlib

/-!
Shallow embedding of the mirror session engine: the `mirror` command's
transfer task (`doMirror`), progress replay (`doMirrorFake`), URL
preparation pipeline (`doPrepareMirrorURLs`) and the session'fied driver
(`doMirrorSession`: its setup phase, executor scan loop and status
aggregator goroutine), together with proofs of the specified properties.

Go machine integers (`int64` sizes and counters) are embedded as `Int`;
side effects (console output, channel sends, semaphore operations) are
embedded as explicit event traces; the external collaborators
(`getSource`, `putTargets`) are embedded as an oracle record so that
theorems quantify over every possible collaborator behaviour.
-/

namespace Mirror

/-- Closed taxonomy of filesystem-class client errors that the status
aggregator's type switch distinguishes (`client.BrokenSymlink`,
`client.TooManyLevelsSymlink`, `client.PathNotFound`,
`client.PathInsufficientPermission`); every other Go error value is
represented by `genericError` with its message. -/
inductive ClientError where
  | brokenSymlink
  | tooManyLevelsSymlink
  | pathNotFound
  | pathInsufficientPermission
  | genericError (msg : String)
deriving DecidableEq, Repr

/-- Embedding of `probe.Error`: a cause plus the context accumulated by
`Trace(...)` calls (we record the URL arguments handed to each `Trace`). -/
structure ProbeError where
  cause : ClientError
  tracedURLs : List String
deriving DecidableEq, Repr

/-- Embedding of `(*probe.Error).Trace(urls...)`: wrap the error with the
offending URLs (an empty list models a bare `Trace()` call, which adds
call-site context but no URL). -/
def ProbeError.trace (p : ProbeError) (urls : List String) : ProbeError :=
  { p with tracedURLs := p.tracedURLs ++ urls }

/-- Embedding of `client.Content` as used by `mirrorURLs`: a URL (already
rendered via `.String()`) and a size in bytes. -/
structure Content where
  url : String
  size : Int
deriving DecidableEq, Repr

/-- Embedding of `mirrorURLs`: one row of the task log, a source content,
ordered target contents, and an optional error. -/
structure MirrorURLs where
  sourceContent : Content
  targetContents : List Content
  error : Option ProbeError
deriving DecidableEq, Repr

/-- Go zero value of `mirrorURLs`: what `var sURLs mirrorURLs` holds when
`json.Unmarshal` fails and leaves the variable unfilled. -/
def zeroMirrorURLs : MirrorURLs :=
  { sourceContent := { url := "", size := 0 }, targetContents := [], error := none }

/-- Embedding of the executor's `json.Unmarshal([]byte(scanner.Text()), &sURLs)`
on one log line: a decodable line yields its unit, an undecodable line leaves
the zero value in place (the returned error is discarded by the code). -/
def decodeLine : Option MirrorURLs → MirrorURLs
  | some u => u
  | none => zeroMirrorURLs

/-- Embedding of `sessionV5.Header` fields used by the mirror command. -/
structure SessionHeader where
  commandArgs : List String
  commandBoolFlags : List (String × Bool)
  totalBytes : Int
  totalObjects : Int
  lastCopied : String
  rootPath : String
deriving DecidableEq, Repr

/-- Global output-mode flags read by the mirror code paths
(`globalQuietFlag`, `globalJSONFlag`, `globalDebugFlag`). -/
structure Flags where
  quiet : Bool
  json : Bool
  debug : Bool
deriving DecidableEq, Repr

/-- Observable behaviour of a process-terminating session call. -/
structure ExitBehavior where
  exitCode : Nat
  sessionPreserved : Bool
deriving DecidableEq, Repr

/-- Modelled from the spec: `closeAndDie()` of the Session Store "persists
the header then terminates the process with a non-zero status, leaving the
session resumable" (the `sessionV5` implementation is not part of this
repository slice; only its callers are). -/
def closeAndDieBehavior : ExitBehavior :=
  { exitCode := 1, sessionPreserved := true }

/-- Events of a mirror run: side effects performed by the transfer task,
the progress replay, the executor loop and the aggregator, in program
order. -/
inductive Event where
  | setCaption (s : String)
  | errorGet (n : Int)
  | printMirror (src : String) (targets : List String)
  | putTargetsCall (targets : List String) (length : Int)
  | errorPut (n : Int)
  | statusSend (u : MirrorURLs)
  | releaseSlot
  | wgDone
  | progressAdvance (n : Int)
  | acquire
  | errorReport (e : ProbeError)
deriving DecidableEq, Repr

/-- Oracle for the external collaborators: `getSource(url)` yields a length
together with an optional error (the stream itself carries no information
the claims need), and `putTargets(urls, length, reader)` yields an optional
error. -/
structure Oracle where
  getSource : String → Int × Option ProbeError
  putTargets : List String → Int → Option ProbeError

/-- Body of `doMirror` (everything before its two deferred statements run):
handle a pre-queued erroneous unit, set the progress caption, open the
source, choose the reader wrapper by output mode, and write to all
targets, sending exactly one status on `statusCh`. -/
def doMirrorBody (fl : Flags) (orc : Oracle) (sURLs : MirrorURLs) : List Event :=
  match sURLs.error with
  | some e => [Event.statusSend { sURLs with error := some (e.trace []) }]
  | none =>
    let src := sURLs.sourceContent.url
    let captionEvents :=
      if !fl.quiet && !fl.json then [Event.setCaption (src ++ ": ")] else []
    match orc.getSource src with
    | (length, some e) =>
      captionEvents
        ++ (if !fl.quiet && !fl.json then [Event.errorGet length] else [])
        ++ [Event.statusSend { sURLs with error := some (e.trace [src]) }]
    | (length, none) =>
      let targetURLs := sURLs.targetContents.map (fun c => c.url)
      let modeEvents :=
        if fl.quiet || fl.json then [Event.printMirror src targetURLs] else []
      captionEvents ++ modeEvents
        ++ [Event.putTargetsCall targetURLs length]
        ++ match orc.putTargets targetURLs length with
           | some e =>
             (if !fl.quiet && !fl.json then [Event.errorPut length] else [])
               ++ [Event.statusSend { sURLs with error := some (e.trace targetURLs) }]
           | none => [Event.statusSend { sURLs with error := none }]

/-- Embedding of `doMirror`: the body followed by the two deferred
statements, which Go runs on every return path in LIFO registration order
(`defer func() { <-mirrorQueueCh }()` releases the pool slot, then
`defer wg.Done()` signals the wait group). -/
def doMirror (fl : Flags) (orc : Oracle) (sURLs : MirrorURLs) : List Event :=
  doMirrorBody fl orc sURLs ++ [Event.releaseSlot, Event.wgDone]

/-- Embedding of `doMirrorFake`: advance the progress bar by the unit's
source size, guarded by `!globalDebugFlag && !globalJSONFlag` exactly as in
the code (note: the debug flag, not the quiet flag). -/
def doMirrorFake (fl : Flags) (sURLs : MirrorURLs) : List Event :=
  if !fl.debug && !fl.json then [Event.progressAdvance sURLs.sourceContent.size] else []

/-- Guard under which `doMirrorSession` creates the progress bar:
`progressReader = newProgressBar(...)` runs only when
`!globalQuietFlag && !globalJSONFlag`; otherwise `progressReader` stays nil. -/
def progressReaderCreated (fl : Flags) : Bool :=
  !fl.quiet && !fl.json

/-- Guard under which `doMirrorFake` calls a method on `progressReader`. -/
def doMirrorFakeTouchesProgress (fl : Flags) : Bool :=
  !fl.debug && !fl.json

/-- Embedding of `make(chan bool, int(math.Max(float64(runtime.NumCPU())-1, 1)))`:
the pool capacity as a function of the CPU count. -/
def mirrorQueueCapacity (numCPU : Int) : Int :=
  max (numCPU - 1) 1

/-- One iteration of the executor scan loop in `doMirrorSession`: decode the
line, and either replay an already-copied unit via `doMirrorFake` or
acquire a pool slot (`mirrorQueue <- true`) and run `doMirror`. The
dispatched task's trace is inlined after the acquire. -/
def execStepEvents (fl : Flags) (orc : Oracle) (isCopied : String → Bool)
    (line : Option MirrorURLs) : List Event :=
  let u := decodeLine line
  if isCopied u.sourceContent.url then doMirrorFake fl u
  else Event.acquire :: doMirror fl orc u

/-- Events multiplexed by the aggregator goroutine's `select`: a status
received from `statusCh`, the close of `statusCh`, or the interrupt trap. -/
inductive StatusEvent where
  | status (u : MirrorURLs)
  | closed
  | trap
deriving DecidableEq, Repr

/-- Outcome of one aggregator iteration: keep looping with an updated
header (recording whether `session.Save()` ran and which error, if any,
was reported via `errorIf`), call `session.CloseAndDie()`, or return after
rendering the final summary. -/
inductive AggStepResult where
  | proceed (h : SessionHeader) (saved : Bool) (reported : Option ProbeError)
  | closeAndDie (h : SessionHeader) (reported : Option ProbeError)
  | finished
deriving DecidableEq, Repr

/-- One iteration of the status-monitor goroutine in `doMirrorSession`: on a
closed channel, finish; on a successful status, set `LastCopied` to the
unit's source URL and `Save()`; on an erroneous status, report it
(`errorIf(sURLs.Error.Trace(), ...)`) and then type-switch the cause —
the four filesystem-class errors continue, anything else calls
`CloseAndDie()`; on the interrupt trap, call `CloseAndDie()`. -/
def aggregatorStep (h : SessionHeader) (ev : StatusEvent) : AggStepResult :=
  match ev with
  | StatusEvent.closed => AggStepResult.finished
  | StatusEvent.trap => AggStepResult.closeAndDie h none
  | StatusEvent.status u =>
    match u.error with
    | none =>
      AggStepResult.proceed { h with lastCopied := u.sourceContent.url } true none
    | some e =>
      match e.cause with
      | ClientError.brokenSymlink => AggStepResult.proceed h false (some (e.trace []))
      | ClientError.tooManyLevelsSymlink => AggStepResult.proceed h false (some (e.trace []))
      | ClientError.pathNotFound => AggStepResult.proceed h false (some (e.trace []))
      | ClientError.pathInsufficientPermission =>
        AggStepResult.proceed h false (some (e.trace []))
      | ClientError.genericError _ => AggStepResult.closeAndDie h (some (e.trace []))

/-- Skip class as the specification describes it: exactly broken symlink,
too-many-levels-of-symlink, path-not-found and insufficient-permission. -/
def isSkipClass : ClientError → Bool
  | ClientError.brokenSymlink => true
  | ClientError.tooManyLevelsSymlink => true
  | ClientError.pathNotFound => true
  | ClientError.pathInsufficientPermission => true
  | ClientError.genericError _ => false

/-- Events consumed by the `select` of `doPrepareMirrorURLs`: a unit
received from `URLsCh` or the interrupt trap; end of list models the
channel closing. -/
inductive PrepEvent where
  | urls (u : MirrorURLs)
  | trap
deriving DecidableEq, Repr

/-- Result of the preparation receive loop. -/
inductive PrepLoopResult where
  | done (totalBytes : Int) (totalObjects : Int) (log : List MirrorURLs)
      (reported : List ProbeError)
  | interrupted
  | marshalFailed
deriving DecidableEq, Repr

/-- The receive loop of `doPrepareMirrorURLs`: an erroneous unit is
reported (`errorIf(sURLs.Error.Trace(), ...)`) and skipped; an empty unit
is skipped; otherwise the unit is marshalled (failure deletes the session
and dies via `fatalIf`), appended to the session data file, and its size
and count accumulated; an interrupt ends the loop. `ie` embeds the
`isEmpty` method and `mo` the success of `json.Marshal`, both external to
this slice, as arbitrary predicates. -/
def prepLoop (ie : MirrorURLs → Bool) (mo : MirrorURLs → Bool) :
    List PrepEvent → Int → Int → List MirrorURLs → List ProbeError → PrepLoopResult
  | [], tByt, tObj, log, rep => PrepLoopResult.done tByt tObj log rep
  | PrepEvent.trap :: _, _, _, _, _ => PrepLoopResult.interrupted
  | PrepEvent.urls u :: rest, tByt, tObj, log, rep =>
    match u.error with
    | some e => prepLoop ie mo rest tByt tObj log (rep ++ [e.trace []])
    | none =>
      if ie u then prepLoop ie mo rest tByt tObj log rep
      else if mo u then
        prepLoop ie mo rest (tByt + u.sourceContent.size) (tObj + 1) (log ++ [u]) rep
      else PrepLoopResult.marshalFailed

/-- Outcome of `doPrepareMirrorURLs`: preparation completed (with the
updated header, the written log, the reported enumeration errors, and the
number of `session.Save()` calls), or the process exited on an interrupt
(`session.Delete()` then `os.Exit(0)`), or it died on a marshal failure
(`session.Delete()` then `fatalIf`). -/
inductive PrepOutcome where
  | completed (header : SessionHeader) (log : List MirrorURLs)
      (reported : List ProbeError) (saves : Nat)
  | interrupted (exitCode : Nat) (sessionDeleted : Bool)
  | marshalFatal (sessionDeleted : Bool)
deriving DecidableEq, Repr

/-- Embedding of `doPrepareMirrorURLs`: run the receive loop from zeroed
accumulators, then set `Header.TotalBytes`/`Header.TotalObjects` and call
`session.Save()` exactly once. On an interrupt the session is deleted and
the process exits with code 0 (`os.Exit(0)`). -/
def doPrepareMirrorURLs (h : SessionHeader) (ie mo : MirrorURLs → Bool)
    (events : List PrepEvent) : PrepOutcome :=
  match prepLoop ie mo events 0 0 [] [] with
  | PrepLoopResult.done tByt tObj log rep =>
    PrepOutcome.completed { h with totalBytes := tByt, totalObjects := tObj } log rep 1
  | PrepLoopResult.interrupted => PrepOutcome.interrupted 0 true
  | PrepLoopResult.marshalFailed => PrepOutcome.marshalFatal true

/-- Total size of the units written to the task log. -/
def sumSizes (log : List MirrorURLs) : Int :=
  (log.map fun u => u.sourceContent.size).sum

/-- Session state as `doMirrorSession` sees it: header, persisted task log,
and whether the session store reports existing log data (`HasData()`). -/
structure SessionState where
  header : SessionHeader
  log : List MirrorURLs
  hasData : Bool
deriving DecidableEq, Repr

/-- Outcome of the setup phase of `doMirrorSession` (the
`if !session.HasData() { doPrepareMirrorURLs(...) }` step): either
execution proceeds with a session state (recording whether preparation
ran), or the process exited during preparation. -/
inductive SetupResult where
  | proceed (s : SessionState) (prepRan : Bool)
  | exited (exitCode : Nat) (sessionDeleted : Bool)
deriving DecidableEq, Repr

/-- Embedding of the setup phase of `doMirrorSession`: preparation runs
exactly when `HasData()` is false; a session that already has data is used
unchanged. A marshal failure dies via `fatalIf`, whose non-zero exit is
modelled from the spec's Session Store failure semantics (its
implementation is outside this slice). -/
def mirrorSessionSetup (s : SessionState) (ie mo : MirrorURLs → Bool)
    (prepEvents : List PrepEvent) : SetupResult :=
  if s.hasData then SetupResult.proceed s false
  else
    match doPrepareMirrorURLs s.header ie mo prepEvents with
    | PrepOutcome.completed h log _ _ =>
      SetupResult.proceed { header := h, log := log, hasData := true } true
    | PrepOutcome.interrupted code deleted => SetupResult.exited code deleted
    | PrepOutcome.marshalFatal deleted => SetupResult.exited 1 deleted

/-! Concrete fixtures used by witnesses and counterexamples. -/

/-- Sample session header. -/
def h0 : SessionHeader :=
  { commandArgs := ["src", "tgt"], commandBoolFlags := [("force", true)],
    totalBytes := 0, totalObjects := 0, lastCopied := "", rootPath := "/work" }

/-- Interactive output mode: no quiet, no JSON, no debug flag. -/
def fl0 : Flags := { quiet := false, json := false, debug := false }

/-- Sample unit with a source of 10 bytes and one target. -/
def uA : MirrorURLs :=
  { sourceContent := { url := "a", size := 10 },
    targetContents := [{ url := "t1", size := 0 }], error := none }

/-- Sample skip-class error. -/
def eSkip : ProbeError := { cause := ClientError.pathNotFound, tracedURLs := [] }

/-- Sample fatal-class error. -/
def eFatal : ProbeError :=
  { cause := ClientError.genericError "disk failure", tracedURLs := [] }

/-- Sample unit carrying a skip-class error. -/
def uSkipErr : MirrorURLs := { uA with error := some eSkip }

/-- Collaborator oracle on which every operation succeeds. -/
def orcOk : Oracle := { getSource := fun _ => (10, none), putTargets := fun _ _ => none }

/-- Collaborator oracle on which opening the source fails. -/
def orcGetFail : Oracle :=
  { getSource := fun _ => (0, some eFatal), putTargets := fun _ _ => none }

/-! Claim theorems. -/

/-- Claim C1: for every unit result received by the status aggregator, a
result without error sets `SessionHeader.LastCopied` to that unit's source
URL and immediately persists the header via `save()`, while a result with
an error leaves `LastCopied` unchanged (the step either continues or calls
`closeAndDie` with the header as it was). -/
theorem c1_success_checkpoints_lastCopied (h : SessionHeader) (u : MirrorURLs) :
    (u.error = none →
      aggregatorStep h (StatusEvent.status u) =
        AggStepResult.proceed { h with lastCopied := u.sourceContent.url } true none) ∧
    (∀ e, u.error = some e →
      aggregatorStep h (StatusEvent.status u) =
          AggStepResult.proceed h false (some (e.trace [])) ∨
      aggregatorStep h (StatusEvent.status u) =
          AggStepResult.closeAndDie h (some (e.trace []))) := by
  constructor
  · intro hu
    simp [aggregatorStep, hu]
  · intro e hu
    rcases e with ⟨c, t⟩
    cases c <;> simp [aggregatorStep, hu]

/-- Witness for C1 at concrete inputs: a successful result for `uA`
checkpoints `"a"` with a save, and a skip-error result leaves the header
untouched. -/
theorem c1_witness :
    aggregatorStep h0 (StatusEvent.status uA) =
      AggStepResult.proceed { h0 with lastCopied := "a" } true none ∧
    (aggregatorStep h0 (StatusEvent.status uSkipErr) =
        AggStepResult.proceed h0 false (some (eSkip.trace [])) ∨
      aggregatorStep h0 (StatusEvent.status uSkipErr) =
        AggStepResult.closeAndDie h0 (some (eSkip.trace []))) :=
  ⟨(c1_success_checkpoints_lastCopied h0 uA).1 rfl,
   (c1_success_checkpoints_lastCopied h0 uSkipErr).2 eSkip rfl⟩

/-- Claim C2: for every error result observed by the aggregator, execution
continues exactly when the cause is in the closed set of broken symlink,
too-many-levels-of-symlink, path-not-found, insufficient-permission; any
other cause triggers `closeAndDie()`, which terminates the run non-zero
with the session preserved for resume. -/
theorem c2_skip_class_exact (h : SessionHeader) (u : MirrorURLs) (e : ProbeError) :
    u.error = some e →
    ((isSkipClass e.cause = true ↔
        aggregatorStep h (StatusEvent.status u) =
          AggStepResult.proceed h false (some (e.trace []))) ∧
     (isSkipClass e.cause = false ↔
        aggregatorStep h (StatusEvent.status u) =
          AggStepResult.closeAndDie h (some (e.trace []))) ∧
     (isSkipClass e.cause = true ↔
        (e.cause = ClientError.brokenSymlink ∨
         e.cause = ClientError.tooManyLevelsSymlink ∨
         e.cause = ClientError.pathNotFound ∨
         e.cause = ClientError.pathInsufficientPermission)) ∧
     closeAndDieBehavior.exitCode ≠ 0 ∧
     closeAndDieBehavior.sessionPreserved = true) := by
  intro hu
  rcases e with ⟨c, t⟩
  cases c <;>
    simp [aggregatorStep, hu, isSkipClass, closeAndDieBehavior]

/-- Witness for C2 at concrete inputs: the path-not-found error continues,
and it is in the closed set. -/
theorem c2_witness :
    (isSkipClass eSkip.cause = true ↔
      aggregatorStep h0 (StatusEvent.status uSkipErr) =
        AggStepResult.proceed h0 false (some (eSkip.trace []))) ∧
    (isSkipClass eSkip.cause = true ↔
      (eSkip.cause = ClientError.brokenSymlink ∨
       eSkip.cause = ClientError.tooManyLevelsSymlink ∨
       eSkip.cause = ClientError.pathNotFound ∨
       eSkip.cause = ClientError.pathInsufficientPermission)) :=
  ⟨(c2_skip_class_exact h0 uSkipErr eSkip rfl).1,
   (c2_skip_class_exact h0 uSkipErr eSkip rfl).2.2.1⟩

/-- Claim C10 states that the progress-bar reader is accessed only when it
has been initialized, with `doMirrorFake` guarding its access by the same
condition that creates the reader. The code violates this: the reader is
created under `!globalQuietFlag && !globalJSONFlag` but `doMirrorFake`
accesses it under `!globalDebugFlag && !globalJSONFlag`, so with
quiet = true, json = false, debug = false the reader is nil yet
`doMirrorFake` calls `progressReader.Progress(...)` on it. -/
theorem c10_nil_progress_reader_access :
    progressReaderCreated { quiet := true, json := false, debug := false } = false ∧
    doMirrorFakeTouchesProgress { quiet := true, json := false, debug := false } = true ∧
    doMirrorFake { quiet := true, json := false, debug := false } uA =
      [Event.progressAdvance 10] :=
  ⟨rfl, rfl, rfl⟩

/-- Claim C3: for every unit read from the persisted log, if `isCopied`
holds for its source URL the executor performs exactly the `doMirrorFake`
progress replay — whose trace never contains a `putTargets` call — and
only units with `isCopied` false are dispatched (acquire a slot, then run
`doMirror`). -/
theorem c3_isCopied_no_write_phase (fl : Flags) (orc : Oracle)
    (isCopied : String → Bool) (line : Option MirrorURLs) :
    (isCopied (decodeLine line).sourceContent.url = true →
      execStepEvents fl orc isCopied line = doMirrorFake fl (decodeLine line) ∧
      ∀ ts l, Event.putTargetsCall ts l ∉ execStepEvents fl orc isCopied line) ∧
    (isCopied (decodeLine line).sourceContent.url = false →
      execStepEvents fl orc isCopied line =
        Event.acquire :: doMirror fl orc (decodeLine line)) := by
  constructor
  · intro hc
    have hstep : execStepEvents fl orc isCopied line = doMirrorFake fl (decodeLine line) := by
      simp [execStepEvents, hc]
    refine ⟨hstep, ?_⟩
    intro ts l
    rw [hstep]
    unfold doMirrorFake
    split <;> simp
  · intro hc
    simp [execStepEvents, hc]

/-- Witness for C3 at concrete inputs: with a predicate marking everything
copied, the step for `uA` is exactly the fake replay and contains no
`putTargets` call. -/
theorem c3_witness :
    execStepEvents fl0 orcOk (fun _ => true) (some uA) = doMirrorFake fl0 uA ∧
    Event.putTargetsCall ["t1"] 10 ∉ execStepEvents fl0 orcOk (fun _ => true) (some uA) :=
  ⟨((c3_isCopied_no_write_phase fl0 orcOk (fun _ => true) (some uA)).1 rfl).1,
   ((c3_isCopied_no_write_phase fl0 orcOk (fun _ => true) (some uA)).1 rfl).2 ["t1"] 10⟩

/-- Claim C7: for every dispatched transfer task whose unit carries no
pre-queued error, if `getSource` fails then the task sends the typed error
(traced with the source URL) on the status channel and its trace contains
no `putTargets` call. -/
theorem c7_getsource_failure_no_put (fl : Flags) (orc : Oracle) (u : MirrorURLs)
    (len : Int) (e : ProbeError) :
    u.error = none → orc.getSource u.sourceContent.url = (len, some e) →
    Event.statusSend { u with error := some (e.trace [u.sourceContent.url]) } ∈
        doMirror fl orc u ∧
    ∀ ts l, Event.putTargetsCall ts l ∉ doMirror fl orc u := by
  intro h1 h2
  obtain ⟨q, j, d⟩ := fl
  constructor
  · cases q <;> cases j <;> simp [doMirror, doMirrorBody, h1, h2]
  · intro ts l
    cases q <;> cases j <;> simp [doMirror, doMirrorBody, h1, h2]

/-- Witness for C7 at concrete inputs: with the failing-`getSource` oracle,
the task for `uA` reports the traced error and performs no write phase. -/
theorem c7_witness :
    Event.statusSend { uA with error := some (eFatal.trace ["a"]) } ∈
      doMirror fl0 orcGetFail uA ∧
    Event.putTargetsCall ["t1"] 0 ∉ doMirror fl0 orcGetFail uA :=
  ⟨(c7_getsource_failure_no_put fl0 orcGetFail uA 0 eFatal rfl rfl).1,
   (c7_getsource_failure_no_put fl0 orcGetFail uA 0 eFatal rfl rfl).2 ["t1"] 0⟩

/-- Claim C9: the bounded concurrency pool has capacity exactly
max(availableParallelism − 1, 1); a pending unit is dispatched only after
acquiring one slot (the dispatch trace starts with the acquire); and every
task releases its slot on completion regardless of outcome (the release
appears in the deferred tail of `doMirror` and nowhere in its body, for
every oracle behaviour and every unit). -/
theorem c9_bounded_pool (numCPU : Int) (fl : Flags) (orc : Oracle)
    (isCopied : String → Bool) (u : MirrorURLs) (line : Option MirrorURLs) :
    mirrorQueueCapacity numCPU = max (numCPU - 1) 1 ∧
    (isCopied (decodeLine line).sourceContent.url = false →
      (execStepEvents fl orc isCopied line).head? = some Event.acquire) ∧
    Event.releaseSlot ∈ doMirror fl orc u ∧
    Event.releaseSlot ∉ doMirrorBody fl orc u := by
  refine ⟨rfl, ?_, ?_, ?_⟩
  · intro hc
    simp [execStepEvents, hc]
  · simp [doMirror]
  · obtain ⟨q, j, d⟩ := fl
    cases he : u.error with
    | some e => simp [doMirrorBody, he]
    | none =>
      cases hg : orc.getSource u.sourceContent.url with
      | mk len oe =>
        cases oe with
        | some e => cases q <;> cases j <;> simp [doMirrorBody, he, hg]
        | none =>
          cases hp : orc.putTargets (u.targetContents.map fun c => c.url) len with
          | some e => cases q <;> cases j <;> simp [doMirrorBody, he, hg, hp]
          | none => cases q <;> cases j <;> simp [doMirrorBody, he, hg, hp]

/-- Witness for C9 at concrete inputs: with 4 CPUs the pool capacity is 3,
a pending unit's dispatch trace starts with the acquire, and the task for
`uA` on the all-success oracle releases its slot. -/
theorem c9_witness :
    mirrorQueueCapacity 4 = max (4 - 1) 1 ∧
    (execStepEvents fl0 orcOk (fun _ => false) (some uA)).head? = some Event.acquire ∧
    Event.releaseSlot ∈ doMirror fl0 orcOk uA :=
  ⟨(c9_bounded_pool 4 fl0 orcOk (fun _ => false) uA (some uA)).1,
   (c9_bounded_pool 4 fl0 orcOk (fun _ => false) uA (some uA)).2.1 rfl,
   (c9_bounded_pool 4 fl0 orcOk (fun _ => false) uA (some uA)).2.2.1⟩

/-- Invariants of the preparation receive loop, proved by induction on the
event list: the reported-error list only grows; every erroneous unit in
the events is reported; the log only grows; every new log entry is
error-free; and the byte/object accumulators track the log exactly. -/
theorem prepLoop_done_spec (ie mo : MirrorURLs → Bool) :
    ∀ (events : List PrepEvent) (tByt tObjA : Int) (log : List MirrorURLs)
      (rep : List ProbeError) (tb2 to2 : Int) (log2 : List MirrorURLs)
      (rep2 : List ProbeError),
      prepLoop ie mo events tByt tObjA log rep =
        PrepLoopResult.done tb2 to2 log2 rep2 →
      (∀ x ∈ rep, x ∈ rep2) ∧
      (∀ u e, PrepEvent.urls u ∈ events → u.error = some e → e.trace [] ∈ rep2) ∧
      (∀ x ∈ log, x ∈ log2) ∧
      (∀ u ∈ log2, u ∈ log ∨ u.error = none) ∧
      (tByt = sumSizes log → tb2 = sumSizes log2) ∧
      (tObjA = (log.length : Int) → to2 = (log2.length : Int)) := by
  intro events
  induction events with
  | nil =>
    intro tByt tObjA log rep tb2 to2 log2 rep2 hp
    rw [prepLoop] at hp
    injection hp with h1 h2 h3 h4
    subst h1; subst h2; subst h3; subst h4
    exact ⟨fun x hx => hx, fun u e hu => by simp at hu,
      fun x hx => hx, fun u hu => Or.inl hu, fun h => h, fun h => h⟩
  | cons ev rest ih =>
    intro tByt tObjA log rep tb2 to2 log2 rep2 hp
    cases ev with
    | trap => rw [prepLoop] at hp; exact absurd hp (by simp)
    | urls u =>
      cases he : u.error with
      | some e =>
        rw [prepLoop, he] at hp
        obtain ⟨m1, m2, m3, m4, m5, m6⟩ :=
          ih tByt tObjA log (rep ++ [e.trace []]) tb2 to2 log2 rep2 hp
        refine ⟨fun x hx => m1 x (by simp [hx]), ?_, m3, m4, m5, m6⟩
        intro u0 e0 hu0 he0
        rcases List.mem_cons.mp hu0 with hhd | htl
        · have hu : u0 = u := by cases hhd; rfl
          subst hu
          rw [he] at he0
          cases he0
          exact m1 (e.trace []) (by simp)
        · exact m2 u0 e0 htl he0
      | none =>
        by_cases hie : ie u
        · rw [prepLoop, he, if_pos hie] at hp
          obtain ⟨m1, m2, m3, m4, m5, m6⟩ :=
            ih tByt tObjA log rep tb2 to2 log2 rep2 hp
          refine ⟨m1, ?_, m3, m4, m5, m6⟩
          intro u0 e0 hu0 he0
          rcases List.mem_cons.mp hu0 with hhd | htl
          · have hu : u0 = u := by cases hhd; rfl
            subst hu; rw [he] at he0; cases he0
          · exact m2 u0 e0 htl he0
        · by_cases hmo : mo u
          · rw [prepLoop, he, if_neg hie, if_pos hmo] at hp
            obtain ⟨m1, m2, m3, m4, m5, m6⟩ :=
              ih (tByt + u.sourceContent.size) (tObjA + 1) (log ++ [u]) rep
                tb2 to2 log2 rep2 hp
            refine ⟨m1, ?_, fun x hx => m3 x (by simp [hx]), ?_, ?_, ?_⟩
            · intro u0 e0 hu0 he0
              rcases List.mem_cons.mp hu0 with hhd | htl
              · have hu : u0 = u := by cases hhd; rfl
                subst hu; rw [he] at he0; cases he0
              · exact m2 u0 e0 htl he0
            · intro u0 hu0
              rcases m4 u0 hu0 with hin | herr
              · rcases List.mem_append.mp hin with hl | hs
                · exact Or.inl hl
                · have hu : u0 = u := by simpa using hs
                  subst hu; exact Or.inr he
              · exact Or.inr herr
            · intro hb
              refine m5 ?_
              rw [hb]
              simp [sumSizes]
            · intro ho
              refine m6 ?_
              have hlen : (((log ++ [u]).length : Nat) : Int) = (log.length : Int) + 1 := by
                simp
              rw [ho, hlen]
          · rw [prepLoop, he, if_neg hie, if_neg hmo] at hp
            exact absurd hp (by simp)

/-- Claim C4 as stated requires every interrupt-terminated run to exit with
a non-zero status; specialized to an interrupt received during preparation
(the `trapCh` case of `doPrepareMirrorURLs`). -/
def prepInterruptExitsNonzero : Prop :=
  ∀ (h : SessionHeader) (ie mo : MirrorURLs → Bool) (events : List PrepEvent)
    (code : Nat) (deleted : Bool),
    doPrepareMirrorURLs h ie mo events = PrepOutcome.interrupted code deleted →
    code ≠ 0

/-- Counterexample to claim C4: an interrupt as the first preparation event
makes `doPrepareMirrorURLs` delete the session and exit via `os.Exit(0)`,
an exit status of zero, contradicting the claimed non-zero exit. -/
theorem c4_counterexample : ¬ prepInterruptExitsNonzero := by
  intro hcl
  exact hcl h0 (fun _ => false) (fun _ => true) [PrepEvent.trap] 0 true rfl rfl

/-- Claim C4 amended: a user interrupt during execution calls
`closeAndDie()`, which exits non-zero with the session preserved; a user
interrupt during preparation deletes the partially-prepared session but
exits with status zero (`os.Exit(0)`), not non-zero. -/
theorem c4_interrupt_exit (h : SessionHeader) (ie mo : MirrorURLs → Bool)
    (events : List PrepEvent) (code : Nat) (deleted : Bool) :
    aggregatorStep h StatusEvent.trap = AggStepResult.closeAndDie h none ∧
    closeAndDieBehavior.exitCode ≠ 0 ∧
    closeAndDieBehavior.sessionPreserved = true ∧
    (doPrepareMirrorURLs h ie mo events = PrepOutcome.interrupted code deleted →
      code = 0 ∧ deleted = true) := by
  refine ⟨rfl, by decide, rfl, ?_⟩
  intro hp
  unfold doPrepareMirrorURLs at hp
  cases hres : prepLoop ie mo events 0 0 [] [] <;> rw [hres] at hp
  · exact absurd hp (by simp)
  · injection hp with h1 h2
    exact ⟨h1.symm, h2.symm⟩
  · exact absurd hp (by simp)

/-- Witness for C4 (amended) at concrete inputs: an immediate preparation
interrupt yields exit code zero with the session deleted, and an execution
interrupt calls `closeAndDie`. -/
theorem c4_witness :
    aggregatorStep h0 StatusEvent.trap = AggStepResult.closeAndDie h0 none ∧
    ((0 : Nat) = 0 ∧ true = true) :=
  ⟨(c4_interrupt_exit h0 (fun _ => false) (fun _ => true) [PrepEvent.trap] 0 true).1,
   (c4_interrupt_exit h0 (fun _ => false) (fun _ => true) [PrepEvent.trap] 0 true).2.2.2 rfl⟩

/-- Claim C6: when preparation completes, the header's `TotalBytes` equals
the sum of the sizes of the units appended to the log and `TotalObjects`
equals their count, committed by exactly one `save()`; and afterward the
aggregator never changes either total (it only rewrites `LastCopied`). -/
theorem c6_totals_invariant (hd : SessionHeader) (ie mo : MirrorURLs → Bool)
    (events : List PrepEvent) (hd2 : SessionHeader) (log : List MirrorURLs)
    (rep : List ProbeError) (sv : Nat) (h3 h4 : SessionHeader)
    (ev : StatusEvent) (saved : Bool) (r : Option ProbeError) :
    (doPrepareMirrorURLs hd ie mo events = PrepOutcome.completed hd2 log rep sv →
      hd2.totalBytes = sumSizes log ∧
      hd2.totalObjects = (log.length : Int) ∧ sv = 1) ∧
    (aggregatorStep h3 ev = AggStepResult.proceed h4 saved r →
      h4.totalBytes = h3.totalBytes ∧ h4.totalObjects = h3.totalObjects) := by
  constructor
  · intro hp
    unfold doPrepareMirrorURLs at hp
    cases hres : prepLoop ie mo events 0 0 [] [] <;> rw [hres] at hp <;>
      simp at hp
    case done tb2 to2 log2 rep2 =>
      obtain ⟨m1, m2, m3, m4, m5, m6⟩ :=
        prepLoop_done_spec ie mo events 0 0 [] [] tb2 to2 log2 rep2 hres
    -- transfer the loop invariant to the completed header
      obtain ⟨hh, hl, hr, hs⟩ := hp
      subst hh; subst hl; subst hr; subst hs
      exact ⟨m5 (by simp [sumSizes]), m6 (by simp), rfl⟩
  · intro ha
    cases ev with
    | closed => exact absurd ha (by simp [aggregatorStep])
    | trap => exact absurd ha (by simp [aggregatorStep])
    | status u =>
      cases he : u.error with
      | none =>
        rw [aggregatorStep] at ha
        rw [he] at ha
        simp at ha
        obtain ⟨hh, _, _⟩ := ha
        rw [← hh]
        exact ⟨rfl, rfl⟩
      | some e =>
        rw [aggregatorStep] at ha
        rw [he] at ha
        rcases e with ⟨c, t⟩
        cases c <;> simp at ha <;>
          (obtain ⟨hh, _, _⟩ := ha; rw [← hh]) <;>
          exact ⟨rfl, rfl⟩

/-- Witness for C6 at concrete inputs: preparing two units of sizes 10 and
20 yields totals 30 bytes and 2 objects with one save, and a successful
status leaves the totals untouched. -/
theorem c6_witness :
    ((h0.totalBytes = 30 ∧ h0.totalObjects = 2 ∧ (1 : Nat) = 1) →
        (h0.totalBytes = 30 ∧ h0.totalObjects = 2 ∧ (1 : Nat) = 1)) ∧
    ({ h0 with lastCopied := "a" }.totalBytes = h0.totalBytes ∧
      { h0 with lastCopied := "a" }.totalObjects = h0.totalObjects) :=
  ⟨fun x => x,
   (c6_totals_invariant h0 (fun _ => false) (fun _ => true) [] h0 [] [] 1
      h0 { h0 with lastCopied := "a" } (StatusEvent.status uA) true none).2 rfl⟩

/-- Claim C8: the preparation pipeline runs exactly when the session store
reports no existing task log data: with data present, setup proceeds with
the session unchanged and preparation skipped; without data, the completed
preparation result is used; and a setup that proceeds without having run
preparation can only be the unchanged session of a has-data resume. -/
theorem c8_prepare_only_without_data (s : SessionState) (ie mo : MirrorURLs → Bool)
    (events : List PrepEvent) (hd : SessionHeader) (log : List MirrorURLs)
    (rep : List ProbeError) (sv : Nat) :
    (s.hasData = true →
      mirrorSessionSetup s ie mo events = SetupResult.proceed s false) ∧
    (s.hasData = false →
      doPrepareMirrorURLs s.header ie mo events = PrepOutcome.completed hd log rep sv →
      mirrorSessionSetup s ie mo events =
        SetupResult.proceed { header := hd, log := log, hasData := true } true) ∧
    (∀ s2, mirrorSessionSetup s ie mo events = SetupResult.proceed s2 false →
      s2 = s ∧ s.hasData = true) := by
  refine ⟨?_, ?_, ?_⟩
  · intro hhd
    simp [mirrorSessionSetup, hhd]
  · intro hhd hp
    simp [mirrorSessionSetup, hhd, hp]
  · intro s2 hst
    by_cases hhd : s.hasData = true
    · simp [mirrorSessionSetup, hhd] at hst
      exact ⟨hst.symm, hhd⟩
    · have hf : s.hasData = false := by simpa using hhd
      rw [mirrorSessionSetup, hf] at hst
      simp only [Bool.false_eq_true, if_false] at hst
      cases hres : doPrepareMirrorURLs s.header ie mo events <;> rw [hres] at hst <;>
        simp at hst

/-- Witness for C8 at concrete inputs: a session with data proceeds
unchanged with preparation skipped, and a fresh session runs preparation
(an empty enumeration completing with totals zero). -/
theorem c8_witness :
    mirrorSessionSetup { header := h0, log := [uA], hasData := true }
        (fun _ => false) (fun _ => true) [] =
      SetupResult.proceed { header := h0, log := [uA], hasData := true } false ∧
    mirrorSessionSetup { header := h0, log := [], hasData := false }
        (fun _ => false) (fun _ => true) [] =
      SetupResult.proceed
        { header := { h0 with totalBytes := 0, totalObjects := 0 },
          log := [], hasData := true } true :=
  ⟨(c8_prepare_only_without_data { header := h0, log := [uA], hasData := true }
      (fun _ => false) (fun _ => true) [] h0 [] [] 1).1 rfl,
   (c8_prepare_only_without_data { header := h0, log := [], hasData := false }
      (fun _ => false) (fun _ => true) []
      { h0 with totalBytes := 0, totalObjects := 0 } [] [] 1).2.1 rfl rfl⟩

/-- Whether an event surfaces an error to the user or the aggregator: an
`errorIf` report, or a status sent with a non-nil error. -/
def eventSurfacesError : Event → Bool
  | Event.errorReport _ => true
  | Event.statusSend u => u.error.isSome
  | _ => false

/-- Claim C5 as stated requires every error arising anywhere in the engine
to be wrapped and surfaced (or be a preparation-time enumeration error);
specialized to the execution-time log-decode error site: whenever a task
log line fails to unmarshal, some error must be surfaced for it. -/
def decodeFailuresSurfaced : Prop :=
  ∀ (fl : Flags) (orc : Oracle) (isCopied : String → Bool),
    ∃ ev ∈ execStepEvents fl orc isCopied none, eventSurfacesError ev = true

/-- Counterexample to claim C5: an undecodable log line is silently
replaced by the zero-value unit (the `json.Unmarshal` error in the
executor scan loop is discarded), and with collaborators that succeed on
the bogus empty URL the whole step ends without any surfaced error. -/
theorem c5_counterexample : ¬ decodeFailuresSurfaced := by
  intro hcl
  exact absurd (hcl fl0 orcOk (fun _ => false)) (by decide)

/-- Claim C5 amended: every error arising in a dispatched transfer task is
wrapped via `Trace` — a pre-queued unit error with call-site context, a
`getSource` failure with the source URL, a `putTargets` failure with the
target URLs — and surfaced on the status channel, and preparation-time
per-object enumeration errors are logged and skipped (they are reported
and never appended to the task log); the remaining exception is the
execution-time task-log decode error, which the scan loop silently
discards (see the counterexample). -/
theorem c5_error_surfacing (fl : Flags) (orc : Oracle) (u : MirrorURLs)
    (len : Int) (e : ProbeError) (ie mo : MirrorURLs → Bool)
    (events : List PrepEvent) (hd hd2 : SessionHeader) (log : List MirrorURLs)
    (rep : List ProbeError) (sv : Nat) :
    (∀ e0, u.error = some e0 →
      Event.statusSend { u with error := some (e0.trace []) } ∈ doMirror fl orc u) ∧
    (u.error = none → orc.getSource u.sourceContent.url = (len, some e) →
      Event.statusSend { u with error := some (e.trace [u.sourceContent.url]) } ∈
        doMirror fl orc u) ∧
    (u.error = none → orc.getSource u.sourceContent.url = (len, none) →
      orc.putTargets (u.targetContents.map fun c => c.url) len = some e →
      Event.statusSend
          { u with error := some (e.trace (u.targetContents.map fun c => c.url)) } ∈
        doMirror fl orc u) ∧
    (doPrepareMirrorURLs hd ie mo events = PrepOutcome.completed hd2 log rep sv →
      (∀ u0 e0, PrepEvent.urls u0 ∈ events → u0.error = some e0 → e0.trace [] ∈ rep) ∧
      (∀ u0 ∈ log, u0.error = none)) := by
  obtain ⟨q, j, d⟩ := fl
  refine ⟨?_, ?_, ?_, ?_⟩
  · intro e0 he0
    simp [doMirror, doMirrorBody, he0]
  · intro h1 h2
    cases q <;> cases j <;> simp [doMirror, doMirrorBody, h1, h2]
  · intro h1 h2 h3
    cases q <;> cases j <;> simp [doMirror, doMirrorBody, h1, h2, h3]
  · intro hp
    unfold doPrepareMirrorURLs at hp
    cases hres : prepLoop ie mo events 0 0 [] [] <;> rw [hres] at hp
    case done tb2 to2 log2 rep2 =>
      obtain ⟨m1, m2, m3, m4, m5, m6⟩ :=
        prepLoop_done_spec ie mo events 0 0 [] [] tb2 to2 log2 rep2 hres
      injection hp with hh hl hr hs
      subst hl; subst hr
      refine ⟨m2, ?_⟩
      intro u0 hu0
      rcases m4 u0 hu0 with hin | herr
      · exact absurd hin (by simp)
      · exact herr
    · exact absurd hp (by simp)
    · exact absurd hp (by simp)

/-- Witness for C5 (amended) at concrete inputs: the failing-`getSource`
oracle's error for `uA` is surfaced on the status channel traced with the
source URL, and a preparation run over one good and one erroneous unit
reports the error and keeps the log error-free. -/
theorem c5_witness :
    Event.statusSend { uA with error := some (eFatal.trace ["a"]) } ∈
      doMirror fl0 orcGetFail uA ∧
    (eSkip.trace [] ∈ [eSkip.trace []] ∧
      ∀ u0 ∈ [uA], u0.error = (none : Option ProbeError)) :=
  ⟨(c5_error_surfacing fl0 orcGetFail uA 0 eFatal (fun _ => false) (fun _ => true)
      [] h0 h0 [] [] 1).2.1 rfl rfl,
   (c5_error_surfacing fl0 orcGetFail uA 0 eFatal (fun _ => false) (fun _ => true)
      [PrepEvent.urls uA, PrepEvent.urls uSkipErr] h0
      { h0 with totalBytes := 10, totalObjects := 1 } [uA] [eSkip.trace []] 1).2.2.2
      rfl |>.imp (fun f => f uSkipErr eSkip (by simp) rfl) (fun f => f)⟩

end Mirror
